import Mathlib

/-!
# Verification of the barpi Barrier client core

Shallow embedding of the wire-protocol engine (`barrier-client`: packet codec,
packet stream, clipboard reassembler, session dispatch) and of the HID
synthesizer (`synergy-hid`), with theorems settling the specification claims.

Bytes on the wire are modelled as `List Nat`, each entry a value `< 256`
(the encoders keep this by construction, reducing modulo 256 at the byte
boundary exactly where the Rust types are `u8`/`u16`/`u32`).  Fallible reads
return `Except`.  A Rust panic (out-of-bounds slice index) is modelled as a
distinguished error.
-/

deriving instance DecidableEq for Except

set_option maxRecDepth 8192

namespace Barpi

/-- Byte sequences on the wire. -/
abbrev Bytes := List Nat

/-! ## Numeric helpers (big-endian encodings, two's-complement casts) -/

/-- `u16::to_be_bytes`. -/
def be16 (n : Nat) : Bytes := [n / 256 % 256, n % 256]

/-- `u32::to_be_bytes`. -/
def be32 (n : Nat) : Bytes :=
  [n / 16777216 % 256, n / 65536 % 256, n / 256 % 256, n % 256]

/-- `usize::to_be_bytes` on the 64-bit targets this client is built for. -/
def be64 (n : Nat) : Bytes :=
  [n / 72057594037927936 % 256, n / 281474976710656 % 256,
   n / 1099511627776 % 256, n / 4294967296 % 256] ++ be32 n

/-- The byte (two's complement) of a signed integer, as in `i8::to_be_bytes`. -/
def byteOfInt (i : Int) : Nat := (i % 256).toNat

/-- Reinterpret a byte as an `i8` (two's complement). -/
def toI8 (b : Nat) : Int := if b < 128 then (b : Int) else (b : Int) - 256

/-- Reinterpret a 16-bit value as an `i16` (two's complement). -/
def toI16 (n : Nat) : Int := if n < 32768 then (n : Int) else (n : Int) - 65536

/-- Rust `as i8` on a wider signed integer: truncation to the low byte,
two's complement (NOT clamping). -/
def wrapI8 (x : Int) : Int := (x + 128) % 256 - 128

/-- Clamping to the `i8` range, as the spec's words "clamped to i8" describe.
Stated only to compare against the source's truncation (`wrapI8`). -/
def clampI8 (x : Int) : Int := max (-128) (min 127 x)

/-! ## Error taxonomy

`error.rs` is not under `src/`; the variant names follow the use sites in
`packet_stream.rs`/`clipboard.rs` and spec sections 4.1 and 7
(`ShortRead` is the stream-closed-mid-read error that `tokio`'s
`read_exact`/`read_u32` surface as `UnexpectedEof`). -/

inductive PacketError where
  | PacketTooSmall
  | FormatError
  | ShortRead
  | InsufficientDataError
  deriving DecidableEq, Repr

/-! ## Reader primitives (`packet_io.rs`, over an in-memory stream) -/

/-- One byte (`read_u8`). -/
def readU8 : Bytes → Except PacketError (Nat × Bytes)
  | [] => .error .ShortRead
  | b :: rest => .ok (b, rest)

/-- Big-endian `read_u16`. -/
def readU16 : Bytes → Except PacketError (Nat × Bytes)
  | a :: b :: rest => .ok (a * 256 + b, rest)
  | _ => .error .ShortRead

/-- Big-endian `read_u32`. -/
def readU32 : Bytes → Except PacketError (Nat × Bytes)
  | a :: b :: c :: d :: rest => .ok (((a * 256 + b) * 256 + c) * 256 + d, rest)
  | _ => .error .ShortRead

/-- `read_i8`. -/
def readI8 (s : Bytes) : Except PacketError (Int × Bytes) :=
  match readU8 s with
  | .ok (b, rest) => .ok (toI8 b, rest)
  | .error e => .error e

/-- `read_i16`. -/
def readI16 (s : Bytes) : Except PacketError (Int × Bytes) :=
  match readU16 s with
  | .ok (n, rest) => .ok (toI16 n, rest)
  | .error e => .error e

/-- `read_bytes_fixed::<4>`. -/
def readBytes4 : Bytes → Except PacketError (Bytes × Bytes)
  | a :: b :: c :: d :: rest => .ok ([a, b, c, d], rest)
  | _ => .error .ShortRead

/-- `discard_exact` / `read_exact` into a scratch buffer: consume exactly
`n` bytes or fail. -/
def discardExact (n : Nat) (s : Bytes) : Except PacketError Bytes :=
  if n ≤ s.length then .ok (s.drop n) else .error .ShortRead

/-! ## Clipboard data and blob parsing (`clipboard.rs`) -/

/-- `ClipboardData`: three byte sequences (text, html, bitmap). -/
structure ClipboardData where
  text : Bytes
  html : Bytes
  bitmap : Bytes
  deriving DecidableEq, Repr

/-- `ClipboardData::default()`. -/
def ClipboardData.default : ClipboardData := ⟨[], [], []⟩

/-- `ClipboardData::is_empty`. -/
def ClipboardData.is_empty (d : ClipboardData) : Bool :=
  d.text.isEmpty && d.html.isEmpty && d.bitmap.isEmpty

/-- `extend_exact` (clipboard.rs:114-122): `stream.take(length).read_to_end(buf)`.
A `take`-limited `read_to_end` reads AT MOST `length` bytes and does not fail
when fewer are available; the consumed part and the remaining stream. -/
def extend_exact (length : Nat) (s : Bytes) : Bytes × Bytes :=
  (s.take length, s.drop length)

/-- The format loop of `parse_clipboard` (clipboard.rs:86-110): `num_formats`
iterations, each reading `u32 format`, `u32 length`, then `length` bytes into
the accumulator field selected by the format; format ids other than 0/1/2
yield `FormatError`.  Note the `length` word is read before the format id is
checked. -/
def parse_formats : Nat → Bytes → ClipboardData → Except PacketError ClipboardData
  | 0, _, acc => .ok acc
  | n + 1, s, acc =>
    match readU32 s with
    | .error e => .error e
    | .ok (format, s1) =>
      match readU32 s1 with
      | .error e => .error e
      | .ok (length, s2) =>
        if format = 0 then
          parse_formats n (extend_exact length s2).2
            { acc with text := acc.text ++ (extend_exact length s2).1 }
        else if format = 1 then
          parse_formats n (extend_exact length s2).2
            { acc with html := acc.html ++ (extend_exact length s2).1 }
        else if format = 2 then
          parse_formats n (extend_exact length s2).2
            { acc with bitmap := acc.bitmap ++ (extend_exact length s2).1 }
        else .error .FormatError

/-- `parse_clipboard` (clipboard.rs:80-112): `u32 total_size`, `u32 num_formats`,
then the format entries. -/
def parse_clipboard (buf : Bytes) : Except PacketError ClipboardData :=
  match readU32 buf with
  | .error e => .error e
  | .ok (_sz, s1) =>
    match readU32 s1 with
    | .error e => .error e
    | .ok (num_formats, s2) => parse_formats num_formats s2 ClipboardData.default

/-! ## Clipboard reassembly state (`clipboard.rs`) -/

/-- `ClipboardStage`. -/
inductive ClipboardStage where
  | None
  | Mark1 (id : Nat) (data : Bytes)
  | Mark2 (id : Nat) (data : Bytes)
  | Mark3 (id : Nat) (data : Bytes)
  deriving DecidableEq, Repr

/-! ## Packets (`packet.rs`) -/

/-- The `Packet` enum.  The `barrier-options` feature-gated variants
(`ResetOptions`, `SetDeviceOptions`) are omitted; no claim touches them. -/
inductive Packet where
  | QueryInfo
  | DeviceInfo (x y w h dummy mx my : Nat)
  | InfoAck
  | KeepAlive
  | ClientNoOp
  | ErrorUnknownDevice
  | GrabClipboard (id : Nat) (seq_num : Nat)
  | SetClipboard (id : Nat) (seq_num : Nat) (data : ClipboardData)
  | CursorEnter (x y : Nat) (seq_num : Nat) (mask : Nat)
  | MouseUp (id : Int)
  | MouseDown (id : Int)
  | KeyUp (id mask button : Nat)
  | KeyDown (id mask button : Nat)
  | KeyRepeat (id mask button count : Nat)
  | MouseWheel (x_delta y_delta : Int)
  | CursorLeave
  | MouseMoveAbs (x y : Nat)
  | MouseMove (x y : Int)
  | Unknown (code : Bytes)
  deriving DecidableEq, Repr

/-! ### 4-byte ASCII tags -/

/-- ASCII bytes of the tag QINF. -/
def tagQINF : Bytes := [0x51, 0x49, 0x4E, 0x46]
/-- ASCII bytes of the tag DINF. -/
def tagDINF : Bytes := [0x44, 0x49, 0x4E, 0x46]
/-- ASCII bytes of the tag CIAK. -/
def tagCIAK : Bytes := [0x43, 0x49, 0x41, 0x4B]
/-- ASCII bytes of the tag CALV. -/
def tagCALV : Bytes := [0x43, 0x41, 0x4C, 0x56]
/-- ASCII bytes of the tag CNOP. -/
def tagCNOP : Bytes := [0x43, 0x4E, 0x4F, 0x50]
/-- ASCII bytes of the tag EUNK. -/
def tagEUNK : Bytes := [0x45, 0x55, 0x4E, 0x4B]
/-- ASCII bytes of the tag DMMV. -/
def tagDMMV : Bytes := [0x44, 0x4D, 0x4D, 0x56]
/-- ASCII bytes of the tag DMRM. -/
def tagDMRM : Bytes := [0x44, 0x4D, 0x52, 0x4D]
/-- ASCII bytes of the tag CINN. -/
def tagCINN : Bytes := [0x43, 0x49, 0x4E, 0x4E]
/-- ASCII bytes of the tag COUT. -/
def tagCOUT : Bytes := [0x43, 0x4F, 0x55, 0x54]
/-- ASCII bytes of the tag CCLP. -/
def tagCCLP : Bytes := [0x43, 0x43, 0x4C, 0x50]
/-- ASCII bytes of the tag DCLP. -/
def tagDCLP : Bytes := [0x44, 0x43, 0x4C, 0x50]
/-- ASCII bytes of the tag CLIP (written by `write_chunk`). -/
def tagCLIP : Bytes := [0x43, 0x4C, 0x49, 0x50]
/-- ASCII bytes of the tag DMUP. -/
def tagDMUP : Bytes := [0x44, 0x4D, 0x55, 0x50]
/-- ASCII bytes of the tag DMDN. -/
def tagDMDN : Bytes := [0x44, 0x4D, 0x44, 0x4E]
/-- ASCII bytes of the tag DKUP. -/
def tagDKUP : Bytes := [0x44, 0x4B, 0x55, 0x50]
/-- ASCII bytes of the tag DKDN. -/
def tagDKDN : Bytes := [0x44, 0x4B, 0x44, 0x4E]
/-- ASCII bytes of the tag DKRP. -/
def tagDKRP : Bytes := [0x44, 0x4B, 0x52, 0x50]
/-- ASCII bytes of the tag DMWM. -/
def tagDMWM : Bytes := [0x44, 0x4D, 0x57, 0x4D]
/-- ASCII bytes of the string Barrier. -/
def barrierBytes : Bytes := [0x42, 0x61, 0x72, 0x72, 0x69, 0x65, 0x72]

/-! ## Encoders (`packet_io.rs` writers, `packet.rs` `write_wire`) -/

/-- `write_str` (packet_io.rs:100-104): u32 BE length then the raw bytes. -/
def write_str (s : Bytes) : Bytes := be32 s.length ++ s

/-- Decimal digit bytes of a number, as `format!` renders `usize` values. -/
def decDigits (n : Nat) : Bytes := (Nat.toDigits 10 n).map Char.toNat

/-- `slice::chunks`: consecutive pieces of at most `n` elements
(no piece for the empty slice). -/
def chunksOf (n : Nat) (l : Bytes) : List Bytes :=
  if h : n = 0 ∨ l = [] then [] else l.take n :: chunksOf n (l.drop n)
  termination_by l.length
  decreasing_by
    push_neg at h
    have hl : l.length ≠ 0 := fun hz => h.2 (List.eq_nil_of_length_eq_zero hz)
    simp only [List.length_drop]
    omega

/-- `write_chunk` (packet.rs:170-189): writes `(4 + 6 + chunk.len())` as a
`usize` (8 bytes big-endian on this 64-bit target), the tag `CLIP`, the
6-byte id/seq/mark header, then the chunk body. -/
def write_chunk (id seq mark : Nat) (chunk : Bytes) : Bytes :=
  be64 (4 + 6 + chunk.length) ++ tagCLIP ++ [id % 256] ++ be32 seq ++ [mark % 256] ++ chunk

/-- `Packet::write_wire` (packet.rs:84-167).  Returns `none` where the source
panics (`Unknown` is `unimplemented!`); the catch-all arm logs a warning and
writes nothing (`some []`). -/
def write_wire : Packet → Option Bytes
  | .QueryInfo => some (write_str tagQINF)
  | .DeviceInfo x y w h _ mx my =>
    -- 22-byte buffer: u32 length 4 + 2*7, tag, seven u16 fields
    -- (the pad at buf[16..18] is written as a literal 0, not the `_dummy` field)
    some (be32 18 ++ tagDINF ++ be16 x ++ be16 y ++ be16 w ++ be16 h ++
      be16 0 ++ be16 mx ++ be16 my)
  | .ClientNoOp => some (write_str tagCNOP)
  | .Unknown _ => none
  | .InfoAck => some (write_str tagCIAK)
  | .KeepAlive => some (write_str tagCALV)
  | .ErrorUnknownDevice => some (write_str tagEUNK)
  | .MouseMoveAbs x y => some (be32 8 ++ tagDMMV ++ be16 x ++ be16 y)
  | .SetClipboard id seq data =>
    if data.text.isEmpty then some [] else
      -- Chunk 1: body is usize(len of the decimal size string) ++ the digits
      some (write_chunk id seq 1 (be64 (decDigits data.text.length).length ++
              decDigits data.text.length) ++
            -- Chunk 2: the text in pieces of 32768 bytes
            ((chunksOf 32768 data.text).map (write_chunk id seq 2)).flatten ++
            -- Chunk 3: empty terminator
            write_chunk id seq 3 [])
  | _ => some []

/-! ## Session loop writes (`client.rs`) -/

/-- The handshake reply frame (client.rs:36-42): u32 length
`7 + 2 + 2 + 4 + name.len()`, then `Barrier`, u16 1, u16 6, and the
length-prefixed screen name. -/
def handshake_reply (device_name : Bytes) : Bytes :=
  be32 (7 + 2 + 2 + 4 + device_name.length) ++ barrierBytes ++
    be16 1 ++ be16 6 ++ write_str device_name

/-- The bytes the dispatch loop writes back to the socket in response to one
packet (client.rs:57-145): `QueryInfo` is answered with a `DeviceInfo` frame
carrying x=0, y=0, w=width, h=height, mx=0, my=0; `KeepAlive` is echoed; no
other packet causes a write. -/
def dispatch_reply (width height : Nat) : Packet → Bytes
  | .QueryInfo => (write_wire (.DeviceInfo 0 0 width height 0 0 0)).getD []
  | .KeepAlive => (write_wire .KeepAlive).getD []
  | _ => []

/-! ## The packet stream reader (`packet_stream.rs`) -/

/-- A read either fails with a `PacketError` or hits a Rust panic
(out-of-bounds slice indexing in the DCLP mark-1 arm). -/
inductive ReadErr where
  | err (e : PacketError)
  | indexOutOfBounds
  deriving DecidableEq, Repr

/-- Lift a reader result into the `ReadErr` error type. -/
def liftR {α : Type} : Except PacketError α → Except ReadErr α
  | .ok a => .ok a
  | .error e => .error (.err e)

/-- `String::from_utf8_lossy(bytes).parse::<u32>()`: decimal digits only
(signs and non-digits fail), value below 2^32. -/
def parseAsciiU32 (bs : Bytes) : Option Nat :=
  if bs ≠ [] ∧ bs.all (fun b => 48 ≤ b ∧ b ≤ 57) then
    let v := bs.foldl (fun a b => a * 10 + (b - 48)) 0
    if v < 4294967296 then some v else none
  else none

/-- The DCLP clipboard-stage update of `do_read` (packet_stream.rs:127-216),
given the decoded `mark` and the body buffer `buf`.  Mirrors the source's
`match mark`: mark 1 from `None` parses the ASCII total size (indexing
`buf[0..4]` and `buf[4..]`, which panics when `buf` is shorter than 4);
mark 1 from `Mark3` restarts with the OLD id; marks 2 and 3 append `buf` to
the accumulator; every other combination degrades to `None` with a warning. -/
def clipboard_step (stage : ClipboardStage) (id : Nat) (mark : Nat) (buf : Bytes) :
    Except ReadErr ClipboardStage :=
  if mark = 1 then
    match stage with
    | .None =>
      -- `u32::from_be_bytes([buf[0], buf[1], buf[2], buf[3]])` then
      -- `String::from_utf8_lossy(&buf[4..]).parse::<u32>()`
      if 4 ≤ buf.length then
        match parseAsciiU32 (buf.drop 4) with
        | some _expected_size => .ok (.Mark1 id [])
        | none => .error (.err .FormatError)
      else .error .indexOutOfBounds
    | .Mark3 oldId _ => .ok (.Mark1 oldId [])
    | _ => .ok .None
  else if mark = 2 then
    match stage with
    | .Mark1 i d => .ok (.Mark2 i (d ++ buf))
    | .Mark2 i d => .ok (.Mark2 i (d ++ buf))
    | _ => .ok .None
  else if mark = 3 then
    match stage with
    | .Mark1 i d => .ok (.Mark3 i (d ++ buf))
    | .Mark2 i d => .ok (.Mark3 i (d ++ buf))
    | _ => .ok .None
  else .ok .None

/-- `PacketStream::do_read` (packet_stream.rs:38-284): reads the 4-byte tag and
then the fields of the recognised variant; `limit` tracks how many declared
frame bytes remain and the leftover is discarded at the end.  `limit` is a
`usize` in the source; a malformed declared size can make `limit` go negative,
which wraps to an astronomically large count whose discard then fails with
`ShortRead` — modelled by failing the discard whenever `limit < 0`.

The DCLP arm reproduces the source faithfully, INCLUDING its bug
(packet_stream.rs:116-121): the body buffer is `Vec::with_capacity(limit)`,
which has length 0, so `read_exact(&mut buf)` fills zero bytes; the body is
never consumed from the stream, `limit` is then set to 0 so nothing is
discarded, and the mark-1-from-`None` arm indexes the empty buffer.  The
decoder's `SetClipboard` construction carries no sequence number
(packet_stream.rs:218 omits the field); we supply 0. -/
def do_read (stage : ClipboardStage) (size : Nat) (s : Bytes) :
    Except ReadErr (Packet × ClipboardStage × Bytes) :=
  match readBytes4 s with
  | .error e => .error (.err e)
  | .ok (code, s) =>
    let limit : Int := (size : Int) - 4
    let finish := fun (p : Packet) (st : ClipboardStage) (limit : Int) (s : Bytes) =>
      if 0 ≤ limit then
        match discardExact limit.toNat s with
        | .ok rest => Except.ok (p, st, rest)
        | .error e => Except.error (ReadErr.err e)
      else Except.error (ReadErr.err .ShortRead)
    if code = tagQINF then finish .QueryInfo stage limit s
    else if code = tagCIAK then finish .InfoAck stage limit s
    else if code = tagCALV then finish .KeepAlive stage limit s
    else if code = tagEUNK then finish .ErrorUnknownDevice stage limit s
    else if code = tagDMMV then
      match readU16 s with
      | .error e => .error (.err e)
      | .ok (x, s) =>
        match readU16 s with
        | .error e => .error (.err e)
        | .ok (y, s) => finish (.MouseMoveAbs x y) stage (limit - 4) s
    else if code = tagDMRM then
      match readI16 s with
      | .error e => .error (.err e)
      | .ok (x, s) =>
        match readI16 s with
        | .error e => .error (.err e)
        | .ok (y, s) => finish (.MouseMove x y) stage (limit - 4) s
    else if code = tagCINN then
      match readU16 s with
      | .error e => .error (.err e)
      | .ok (x, s) =>
        match readU16 s with
        | .error e => .error (.err e)
        | .ok (y, s) =>
          match readU32 s with
          | .error e => .error (.err e)
          | .ok (seq_num, s) =>
            match readU16 s with
            | .error e => .error (.err e)
            | .ok (mask, s) => finish (.CursorEnter x y seq_num mask) stage (limit - 10) s
    else if code = tagCOUT then finish .CursorLeave stage limit s
    else if code = tagCCLP then
      match readU8 s with
      | .error e => .error (.err e)
      | .ok (id, s) =>
        match readU32 s with
        | .error e => .error (.err e)
        | .ok (seq_num, s) => finish (.GrabClipboard id seq_num) stage (limit - 5) s
    else if code = tagDCLP then
      match readU8 s with
      | .error e => .error (.err e)
      | .ok (id, s) =>
        match readU32 s with
        | .error e => .error (.err e)
        | .ok (_seq_num, s) =>
          match readU8 s with
          | .error e => .error (.err e)
          | .ok (mark, s) =>
            -- BUG kept from the source: the body buffer stays empty and the
            -- body bytes stay unconsumed in the stream.
            let buf : Bytes := []
            let limit : Int := 0
            match clipboard_step stage id mark buf with
            | .error e => .error e
            | .ok stage1 =>
              match stage1 with
              | .Mark3 i d =>
                match parse_clipboard d with
                | .error e => .error (.err e)
                | .ok cd => finish (.SetClipboard i 0 cd) stage1 limit s
              | _ => finish .ClientNoOp stage1 limit s
    else if code = tagDMUP then
      match readI8 s with
      | .error e => .error (.err e)
      | .ok (id, s) => finish (.MouseUp id) stage (limit - 1) s
    else if code = tagDMDN then
      match readI8 s with
      | .error e => .error (.err e)
      | .ok (id, s) => finish (.MouseDown id) stage (limit - 1) s
    else if code = tagDKUP then
      match readU16 s with
      | .error e => .error (.err e)
      | .ok (id, s) =>
        match readU16 s with
        | .error e => .error (.err e)
        | .ok (mask, s) =>
          match readU16 s with
          | .error e => .error (.err e)
          | .ok (button, s) => finish (.KeyUp id mask button) stage (limit - 6) s
    else if code = tagDKDN then
      match readU16 s with
      | .error e => .error (.err e)
      | .ok (id, s) =>
        match readU16 s with
        | .error e => .error (.err e)
        | .ok (mask, s) =>
          match readU16 s with
          | .error e => .error (.err e)
          | .ok (button, s) => finish (.KeyDown id mask button) stage (limit - 6) s
    else if code = tagDKRP then
      match readU16 s with
      | .error e => .error (.err e)
      | .ok (id, s) =>
        match readU16 s with
        | .error e => .error (.err e)
        | .ok (mask, s) =>
          match readU16 s with
          | .error e => .error (.err e)
          | .ok (count, s) =>
            match readU16 s with
            | .error e => .error (.err e)
            | .ok (button, s) => finish (.KeyRepeat id mask button count) stage (limit - 8) s
    else if code = tagDMWM then
      match readI16 s with
      | .error e => .error (.err e)
      | .ok (x_delta, s) =>
        match readI16 s with
        | .error e => .error (.err e)
        | .ok (y_delta, s) => finish (.MouseWheel x_delta y_delta) stage (limit - 4) s
    else finish (.Unknown code) stage limit s

/-- `PacketStream::read` (packet_stream.rs:19-36): read the u32 frame size;
sizes below 4 consume the stray bytes and fail with `PacketTooSmall`;
otherwise decode the frame with `do_read`. -/
def readFrame (stage : ClipboardStage) (s : Bytes) :
    Except ReadErr (Packet × ClipboardStage × Bytes) :=
  match readU32 s with
  | .error e => .error (.err e)
  | .ok (size, s) =>
    if size < 4 then
      match discardExact size s with
      | .ok _ => .error (.err .PacketTooSmall)
      | .error e => .error (.err e)
    else do_read stage size s

/-! ## HID synthesizer (`synergy-hid/src/lib.rs`)

The modules `hid` (report buffers) and `keycodes` (the static
Synergy-to-HID table) are declared by `lib.rs` but their files are not under
`src/`; the report buffers are modelled from the spec below, and the keycode
table is universally quantified (`toHid`) in everything we prove. -/

/-- `ReportType`. -/
inductive ReportType where
  | Keyboard
  | Mouse
  | Consumer
  deriving DecidableEq, Repr

/-- `KeyCode` (keycodes.rs): an unmapped key, a keyboard usage, or a consumer
usage. -/
inductive KeyCode where
  | None
  | Key (k : Nat)
  | Consumer (u : Nat)
  deriving DecidableEq, Repr

/-- Whether a HID keyboard usage is a modifier (usages 0xE0-0xE7, one report
bit each). -/
def isModifierKey (k : Nat) : Bool := 0xE0 ≤ k && k ≤ 0xE7

/-- Modelled from the spec: `KeyboardReport` lives in the missing `hid`
module.  Spec section 3: an 8-byte boot report `[modifier_mask, reserved,
key1..key6]`; the key slots are an insertion-ordered set of capacity 6 and
`reserved` is always 0. -/
structure KeyboardReport where
  modifier : Nat
  keys : Bytes
  deriving DecidableEq, Repr

/-- The 8 report bytes: modifier, reserved 0, the pressed keys in order of
press, free slots as 0. -/
def KeyboardReport.bytes (r : KeyboardReport) : Bytes :=
  r.modifier :: 0 :: (r.keys ++ List.replicate (6 - r.keys.length) 0)

/-- Modelled from the spec (section 4.4, Clear): zero the report. -/
def KeyboardReport.clear (_ : KeyboardReport) : KeyboardReport × Bytes :=
  (⟨0, []⟩, KeyboardReport.bytes ⟨0, []⟩)

/-- Modelled from the spec (section 4.4, Key down step 3): a modifier ORs its
bit into the mask; any other key goes into the first free slot, dropped
silently when all six are full. -/
def KeyboardReport.press (r : KeyboardReport) (k : Nat) : KeyboardReport × Bytes :=
  let r1 :=
    if isModifierKey k then { r with modifier := r.modifier ||| 2 ^ (k - 0xE0) }
    else if r.keys.length < 6 then { r with keys := r.keys ++ [k] }
    else r
  (r1, r1.bytes)

/-- Modelled from the spec (section 4.4, Key up): a modifier clears its bit;
any other key is removed from the slot list, compacting. -/
def KeyboardReport.release (r : KeyboardReport) (k : Nat) : KeyboardReport × Bytes :=
  let r1 :=
    if isModifierKey k then { r with modifier := r.modifier &&& (255 - 2 ^ (k - 0xE0)) }
    else { r with keys := r.keys.erase k }
  (r1, r1.bytes)

/-- Modelled from the spec: `ConsumerReport` lives in the missing `hid`
module.  A 2-byte little-endian consumer usage code. -/
structure ConsumerReport where
  usage : Nat
  deriving DecidableEq, Repr

/-- The 2 report bytes, little-endian. -/
def ConsumerReport.bytes (r : ConsumerReport) : Bytes :=
  [r.usage % 256, r.usage / 256 % 256]

/-- Modelled from the spec (section 4.4, Key down step 4): set the usage. -/
def ConsumerReport.press (_ : ConsumerReport) (u : Nat) : ConsumerReport × Bytes :=
  (⟨u⟩, ConsumerReport.bytes ⟨u⟩)

/-- Modelled from the spec (section 4.4, Key up, Consumer): zero the report. -/
def ConsumerReport.release (_ : ConsumerReport) : ConsumerReport × Bytes :=
  (⟨0⟩, ConsumerReport.bytes ⟨0⟩)

/-- Modelled from the spec: `AbsMouseReport` lives in the missing `hid`
module.  Spec sections 3 and 6: a 7-byte report
`[buttons_bitmap, x_lo, x_hi, y_lo, y_hi, wheel_v, wheel_h]`, coordinates
little-endian, wheel fields signed bytes. -/
structure AbsMouseReport where
  buttons : Nat
  x : Nat
  y : Nat
  wheel_v : Int
  wheel_h : Int
  deriving DecidableEq, Repr

/-- The 7 report bytes. -/
def AbsMouseReport.bytes (r : AbsMouseReport) : Bytes :=
  [r.buttons, r.x % 256, r.x / 256 % 256, r.y % 256, r.y / 256 % 256,
   byteOfInt r.wheel_v, byteOfInt r.wheel_h]

/-- Modelled from the spec (section 4.4, Mouse wheel): populate the wheel
fields (`mouse_wheel(v, h)`) and emit the report. -/
def AbsMouseReport.mouse_wheel (r : AbsMouseReport) (v h : Int) : AbsMouseReport × Bytes :=
  let r1 := { r with wheel_v := v, wheel_h := h }
  (r1, r1.bytes)

/-- Modelled from the spec (section 4.4, Mouse button / Mouse absolute). -/
def AbsMouseReport.move_to (r : AbsMouseReport) (x y : Nat) : AbsMouseReport × Bytes :=
  let r1 := { r with x := x, y := y }
  (r1, r1.bytes)

/-- `SynergyHid` (lib.rs:24-38). -/
structure SynergyHid where
  width : Nat
  height : Nat
  flip_mouse_wheel : Bool
  x : Nat
  y : Nat
  server_buttons : Bytes
  keyboard_report : KeyboardReport
  mouse_report : AbsMouseReport
  consumer_report : ConsumerReport
  deriving DecidableEq, Repr

/-- `SynergyHid::new` (lib.rs:41-53): zeroed state, 512 server button slots. -/
def SynergyHid.new (width height : Nat) (flip : Bool) : SynergyHid :=
  ⟨width, height, flip, 0, 0, List.replicate 512 0, ⟨0, []⟩, ⟨0, 0, 0, 0, 0⟩, ⟨0⟩⟩

/-- The dispatch on the looked-up `KeyCode` shared by the tail of
`SynergyHid::key_up` (lib.rs:112-126): `None` clears the keyboard report,
`Key` releases it, `Consumer` zeroes the consumer report. -/
def SynergyHid.key_up_apply (hid : SynergyHid) (code : KeyCode) :
    SynergyHid × ReportType × Bytes :=
  match code with
  | .None =>
    let (r, b) := hid.keyboard_report.clear
    ({ hid with keyboard_report := r }, .Keyboard, b)
  | .Key k =>
    let (r, b) := hid.keyboard_report.release k
    ({ hid with keyboard_report := r }, .Keyboard, b)
  | .Consumer _ =>
    let (r, b) := hid.consumer_report.release
    ({ hid with consumer_report := r }, .Consumer, b)

/-- `SynergyHid::key_up` (lib.rs:91-127), parameterised by the keycode table
`toHid` (`synergy_to_hid`, whose file is not under `src/`).  The source
shadows the server-supplied `key` with `self.server_buttons[button]`; when the
stored value is nonzero the slot is cleared and the STORED key is unmapped;
otherwise both remaining branches produce `KeyCode::None`. -/
def SynergyHid.key_up (hid : SynergyHid) (toHid : Nat → KeyCode)
    (_key _mask button : Nat) : SynergyHid × ReportType × Bytes :=
  let stored := hid.server_buttons.getD button 0
  if stored ≠ 0 then
    ({ hid with server_buttons := hid.server_buttons.set button 0 }).key_up_apply
      (toHid stored)
  else
    hid.key_up_apply .None

/-- `SynergyHid::key_down` (lib.rs:63-89), parameterised by the keycode
table: record the server key in the button slot, then press the mapped
usage. -/
def SynergyHid.key_down (hid : SynergyHid) (toHid : Nat → KeyCode)
    (key _mask button : Nat) : SynergyHid × ReportType × Bytes :=
  let hid := { hid with server_buttons := hid.server_buttons.set button key }
  match toHid key with
  | .None =>
    let (r, b) := hid.keyboard_report.clear
    ({ hid with keyboard_report := r }, .Keyboard, b)
  | .Key k =>
    let (r, b) := hid.keyboard_report.press k
    ({ hid with keyboard_report := r }, .Keyboard, b)
  | .Consumer u =>
    let (r, b) := hid.consumer_report.press u
    ({ hid with consumer_report := r }, .Consumer, b)

/-- `SynergyHid::mouse_scroll` (lib.rs:164-177): both deltas are cast with
`as i8` (truncation to the low byte, two's complement — NOT clamping); with
`flip_mouse_wheel` the vertical delta is negated (wrapping at -128); the
report is emitted with `mouse_wheel(y, x)`, vertical first. -/
def SynergyHid.mouse_scroll (hid : SynergyHid) (x y : Int) :
    SynergyHid × ReportType × Bytes :=
  let x := wrapI8 x
  let y := wrapI8 y
  let y := if hid.flip_mouse_wheel then wrapI8 (-y) else y
  let (r, b) := hid.mouse_report.mouse_wheel y x
  ({ hid with mouse_report := r }, .Mouse, b)

/-! ## Statement-level helpers for the claims -/

/-- The legal reassembly transitions of spec section 4.3: mark 1 from `None`
or `Mark3`; marks 2 and 3 from `Mark1` or `Mark2`; nothing else. -/
def legal_transition (mark : Nat) (st : ClipboardStage) : Bool :=
  if mark = 1 then
    match st with
    | .None => true
    | .Mark3 _ _ => true
    | _ => false
  else if mark = 2 ∨ mark = 3 then
    match st with
    | .Mark1 _ _ => true
    | .Mark2 _ _ => true
    | _ => false
  else false

/-- A well-formed `DCLP` frame: u32 length `10 + body.len()`, the tag, u8 id,
u32 sequence number, u8 mark, then the chunk body. -/
def dclp_frame (id seq mark : Nat) (body : Bytes) : Bytes :=
  be32 (10 + body.length) ++ tagDCLP ++ [id % 256] ++ be32 seq ++ [mark % 256] ++ body

/-- One format entry of the clipboard blob of spec section 4.3:
u32 format id, u32 length, then the payload bytes. -/
def format_entry (fmt : Nat) (data : Bytes) : Bytes :=
  be32 fmt ++ be32 data.length ++ data

/-- The concatenated encoding of a list of format entries. -/
def entries_bytes (es : List (Nat × Bytes)) : Bytes :=
  (es.map fun e => format_entry e.1 e.2).flatten

/-- Folding format entries into a `ClipboardData` accumulator: format 0
extends the text, 1 the html, anything else the bitmap. -/
def clip_accum (acc : ClipboardData) (es : List (Nat × Bytes)) : ClipboardData :=
  es.foldl (fun acc e =>
    if e.1 = 0 then { acc with text := acc.text ++ e.2 }
    else if e.1 = 1 then { acc with html := acc.html ++ e.2 }
    else { acc with bitmap := acc.bitmap ++ e.2 }) acc

/-! ## Reader/encoder inversion lemmas -/

theorem readU16_be16 (x : Nat) (r : Bytes) (h : x < 65536) :
    readU16 (be16 x ++ r) = .ok (x, r) := by
  simp only [be16, List.cons_append, List.nil_append, readU16, Except.ok.injEq,
    Prod.mk.injEq, and_true]
  omega

theorem readU16_be16_nil (x : Nat) (h : x < 65536) :
    readU16 (be16 x) = .ok (x, []) := by
  have := readU16_be16 x [] h
  simpa using this

theorem readU32_be32 (x : Nat) (r : Bytes) (h : x < 4294967296) :
    readU32 (be32 x ++ r) = .ok (x, r) := by
  simp only [be32, List.cons_append, List.nil_append, readU32, Except.ok.injEq,
    Prod.mk.injEq, and_true]
  omega

theorem readU8_cons (b : Nat) (r : Bytes) : readU8 (b :: r) = .ok (b, r) := rfl

theorem readBytes4_append (a b c d : Nat) (r : Bytes) :
    readBytes4 (a :: b :: c :: d :: r) = .ok ([a, b, c, d], r) := rfl

/-! ## Claim theorems -/

/-- C1: the spec requires the DCLP chunk body to be all remaining bytes of
the frame, but the source reads it through a zero-length buffer.  Evaluating
the faithful embedding at the mark-1 chunk of spec scenario 6
(`0000000F 44434C50 00 00000007 01 00000001 34`, clipboard stage `None`):
the read consumes no body byte and panics indexing the empty buffer. -/
theorem barpi_C1_dclp_body_bug :
    readFrame ClipboardStage.None
        (be32 15 ++ tagDCLP ++ [0] ++ be32 7 ++ [1] ++ (be32 1 ++ [0x34])) =
      .error ReadErr.indexOutOfBounds := by
  decide

/-- C5 counterexample: the handshake reply for screen name TEST is NOT the
claimed byte sequence `0000000E 42617272696572 0001 0006 00000004 54455354`
— the code writes length prefix `00000013` (7 + 2 + 2 + 4 + 4 = 19). -/
theorem barpi_C5_counterexample :
    handshake_reply [0x54, 0x45, 0x53, 0x54] ≠
      [0x00, 0x00, 0x00, 0x0E, 0x42, 0x61, 0x72, 0x72, 0x69, 0x65, 0x72,
       0x00, 0x01, 0x00, 0x06, 0x00, 0x00, 0x00, 0x04, 0x54, 0x45, 0x53, 0x54] := by
  decide

/-- C5 (amended): the handshake reply for screen name TEST is exactly
`00000013 42617272696572 0001 0006 00000004 54455354`: a u32 big-endian
length prefix (19, the body length) followed by `Barrier`, u16 major 1,
u16 minor 6, and the length-prefixed screen name. -/
theorem barpi_C5_handshake_reply :
    handshake_reply [0x54, 0x45, 0x53, 0x54] =
      [0x00, 0x00, 0x00, 0x13, 0x42, 0x61, 0x72, 0x72, 0x69, 0x65, 0x72,
       0x00, 0x01, 0x00, 0x06, 0x00, 0x00, 0x00, 0x04, 0x54, 0x45, 0x53, 0x54] := by
  decide

/-- C6: a received `QueryInfo` is answered with a `DeviceInfo` frame carrying
x=0, y=0, w=width, h=height, mx=0, my=0, and with width 1920 and height 1080
the emitted frame is exactly
`00000012 44494E46 0000 0000 0780 0438 0000 0000 0000`. -/
theorem barpi_C6_query_info_reply :
    (∀ width height : Nat,
      dispatch_reply width height .QueryInfo =
        be32 18 ++ tagDINF ++ be16 0 ++ be16 0 ++ be16 width ++ be16 height ++
          be16 0 ++ be16 0 ++ be16 0) ∧
    dispatch_reply 1920 1080 .QueryInfo =
      [0x00, 0x00, 0x00, 0x12, 0x44, 0x49, 0x4E, 0x46, 0x00, 0x00, 0x00, 0x00,
       0x07, 0x80, 0x04, 0x38, 0x00, 0x00, 0x00, 0x00, 0x00, 0x00] := by
  exact ⟨fun _ _ => rfl, by decide⟩

/-- C2 counterexample: `CNOP` is a variant the client encodes, and
`00000004 434E4F50` is its well-formed frame, yet the decoder has no `CNOP`
arm — it decodes to `Unknown`, whose re-encoding is `unimplemented!` — so
`encode(decode(W)) = W` fails for the encoded variant `CNOP` (it likewise
fails for `DINF` and for the `CLIP`-tagged clipboard chunks, none of which
the decoder recognises). -/
theorem barpi_C2_counterexample :
    readFrame ClipboardStage.None (write_str tagCNOP) =
        .ok (Packet.Unknown tagCNOP, ClipboardStage.None, []) ∧
      write_wire (Packet.Unknown tagCNOP) = none := by
  decide

/-- C2 (amended): decode-then-encode reproduces the exact frame bytes for the
encodable variants that the decoder also recognises — `QINF`, `CIAK`, `CALV`,
`EUNK`, and `DMMV` — from any clipboard stage; `CNOP`, `DINF` and the
`CLIP`-wrapped clipboard chunks are encode-only (the decoder yields `Unknown`
for their tags), so the round trip does not hold for them. -/
theorem barpi_C2_roundtrip (st : ClipboardStage) (x y : Nat)
    (hx : x < 65536) (hy : y < 65536) :
    (readFrame st (write_str tagQINF) = .ok (.QueryInfo, st, []) ∧
      write_wire .QueryInfo = some (write_str tagQINF)) ∧
    (readFrame st (write_str tagCIAK) = .ok (.InfoAck, st, []) ∧
      write_wire .InfoAck = some (write_str tagCIAK)) ∧
    (readFrame st (write_str tagCALV) = .ok (.KeepAlive, st, []) ∧
      write_wire .KeepAlive = some (write_str tagCALV)) ∧
    (readFrame st (write_str tagEUNK) = .ok (.ErrorUnknownDevice, st, []) ∧
      write_wire .ErrorUnknownDevice = some (write_str tagEUNK)) ∧
    (readFrame st (be32 8 ++ tagDMMV ++ be16 x ++ be16 y) =
        .ok (.MouseMoveAbs x y, st, []) ∧
      write_wire (.MouseMoveAbs x y) = some (be32 8 ++ tagDMMV ++ be16 x ++ be16 y)) := by
  refine ⟨⟨rfl, rfl⟩, ⟨rfl, rfl⟩, ⟨rfl, rfl⟩, ⟨rfl, rfl⟩, ?_, rfl⟩
  have hframe : be32 8 ++ tagDMMV ++ be16 x ++ be16 y =
      0 :: 0 :: 0 :: 8 :: (0x44 :: 0x4D :: 0x4D :: 0x56 :: (be16 x ++ be16 y)) := by
    simp [be32, tagDMMV, be16]
  rw [hframe]
  simp only [readFrame, readU32]
  norm_num
  simp only [do_read, readBytes4]
  norm_num [tagQINF, tagCIAK, tagCALV, tagEUNK, tagDMMV]
  simp only [readU16_be16 x (be16 y) hx, readU16_be16_nil y hy]
  simp [discardExact]

/-- On an illegal transition the reassembler degrades to `None` without
failing (the warn-and-reset arms of packet_stream.rs:145-151, 175-181,
204-210, 212-215). -/
theorem clipboard_step_illegal (st : ClipboardStage) (id mark : Nat) (buf : Bytes)
    (h : legal_transition mark st = false) :
    clipboard_step st id mark buf = .ok .None := by
  by_cases h1 : mark = 1
  · subst h1
    simp only [legal_transition, if_pos rfl] at h
    cases st <;> simp_all [clipboard_step]
  · by_cases h2 : mark = 2
    · subst h2
      simp only [legal_transition] at h
      norm_num at h
      cases st <;> simp_all [clipboard_step]
    · by_cases h3 : mark = 3
      · subst h3
        simp only [legal_transition] at h
        norm_num at h
        cases st <;> simp_all [clipboard_step]
      · simp [clipboard_step, h1, h2, h3]

/-- C7: for every `DCLP` packet whose mark together with the current
reassembly state is not a legal transition (mark 1 from `Mark1`/`Mark2`,
marks 2 or 3 from `None`/`Mark3`, or any mark outside 1..=3), the reassembler
state becomes `None` and the packet read still returns successfully (with
`ClientNoOp`), so the session is not aborted. -/
theorem barpi_C7_illegal_transition (st : ClipboardStage) (id seq mark : Nat)
    (body : Bytes) (hmark : mark < 256) (hseq : seq < 4294967296)
    (hlen : 10 + body.length < 4294967296)
    (hillegal : legal_transition mark st = false) :
    readFrame st (dclp_frame id seq mark body) =
      .ok (Packet.ClientNoOp, ClipboardStage.None, body) := by
  unfold dclp_frame
  simp only [List.append_assoc]
  unfold readFrame
  simp only [readU32_be32 _ _ hlen]
  rw [if_neg (by omega)]
  simp only [tagDCLP, List.cons_append, List.nil_append]
  unfold do_read
  simp only [readBytes4_append]
  norm_num [tagQINF, tagCIAK, tagCALV, tagEUNK, tagDMMV, tagDMRM, tagCINN,
    tagCOUT, tagCCLP, tagDCLP]
  rw [readU8_cons]
  simp only [readU32_be32 _ _ hseq, readU8_cons, Nat.mod_eq_of_lt hmark,
    clipboard_step_illegal st (id % 256) mark [] hillegal]
  simp [discardExact]

/-- Running the format loop over a sequence of complete, known-format entries
consumes exactly their encoding and accumulates their payloads. -/
theorem parse_formats_entries (es : List (Nat × Bytes)) (n : Nat) (rest : Bytes)
    (acc : ClipboardData)
    (hv : ∀ e ∈ es, e.1 < 3 ∧ e.2.length < 4294967296) :
    parse_formats (es.length + n) (entries_bytes es ++ rest) acc =
      parse_formats n rest (clip_accum acc es) := by
  induction es generalizing acc with
  | nil => simp [entries_bytes, clip_accum]
  | cons e es ih =>
    obtain ⟨hfmt, hlen⟩ := hv e (by simp)
    have hes : ∀ e ∈ es, e.1 < 3 ∧ e.2.length < 4294967296 :=
      fun e he => hv e (by simp [he])
    rcases e with ⟨f, d⟩
    simp only [List.length_cons]
    rw [show es.length + 1 + n = (es.length + n) + 1 from by omega]
    rw [show entries_bytes ((f, d) :: es) = format_entry f d ++ entries_bytes es
      from by simp [entries_bytes]]
    simp only [parse_formats, format_entry, List.append_assoc]
    simp only [readU32_be32 f _ (by omega), readU32_be32 d.length _ hlen]
    have htake : (extend_exact d.length (d ++ (entries_bytes es ++ rest))).1 = d := by
      simp [extend_exact, List.take_left]
    have hdrop : (extend_exact d.length (d ++ (entries_bytes es ++ rest))).2 =
        entries_bytes es ++ rest := by
      simp [extend_exact, List.drop_left]
    interval_cases f <;>
      simp only [reduceIte, htake, hdrop] <;>
      exact (ih _ hes).trans (by simp [clip_accum])

/-- C8 counterexample: a blob declaring one text format of length 5 while
only 2 payload bytes are present parses SUCCESSFULLY with the truncated
bytes — `extend_exact` reads through `take(length).read_to_end`, which does
not fail on short data — instead of returning `ShortRead` as claimed. -/
theorem barpi_C8_counterexample :
    parse_clipboard [0, 0, 0, 0, 0, 0, 0, 1, 0, 0, 0, 0, 0, 0, 0, 5, 65, 66] =
        .ok ⟨[65, 66], [], []⟩ ∧
      parse_clipboard [0, 0, 0, 0, 0, 0, 0, 1, 0, 0, 0, 0, 0, 0, 0, 5, 65, 66] ≠
        .error PacketError.ShortRead := by
  decide

/-- C8 (amended): parsing an accumulated clipboard blob returns `FormatError`
for every blob whose format entries, read in order, reach a format id other
than 0 (text), 1 (html) or 2 (bitmap); a declared format length that exceeds
the bytes actually present does NOT produce `ShortRead` — the available bytes
are taken silently (only a subsequent header read past the end of the blob
fails, with `ShortRead`); on success it returns the `ClipboardData` with each
format's bytes. -/
theorem barpi_C8_parse_clipboard :
    (∀ (sz m fmt len : Nat) (es : List (Nat × Bytes)) (rest : Bytes),
      sz < 4294967296 → es.length + m + 1 < 4294967296 →
      3 ≤ fmt → fmt < 4294967296 → len < 4294967296 →
      (∀ e ∈ es, e.1 < 3 ∧ e.2.length < 4294967296) →
      parse_clipboard (be32 sz ++ be32 (es.length + m + 1) ++ entries_bytes es ++
          be32 fmt ++ be32 len ++ rest) =
        .error PacketError.FormatError) ∧
    (∀ (sz : Nat) (es : List (Nat × Bytes)),
      sz < 4294967296 → es.length < 4294967296 →
      (∀ e ∈ es, e.1 < 3 ∧ e.2.length < 4294967296) →
      parse_clipboard (be32 sz ++ be32 es.length ++ entries_bytes es) =
        .ok (clip_accum ClipboardData.default es)) ∧
    (∀ (sz fmt dlen : Nat) (data : Bytes),
      sz < 4294967296 → fmt < 3 → dlen < 4294967296 → data.length < dlen →
      parse_clipboard (be32 sz ++ be32 1 ++ be32 fmt ++ be32 dlen ++ data) =
        .ok (clip_accum ClipboardData.default [(fmt, data)])) := by
  refine ⟨?_, ?_, ?_⟩
  · intro sz m fmt len es rest hsz hcount hfmt3 hfmt hlen hv
    unfold parse_clipboard
    simp only [List.append_assoc]
    simp only [readU32_be32 sz _ hsz, readU32_be32 (es.length + m + 1) _ hcount]
    rw [show es.length + m + 1 = es.length + (m + 1) from by omega]
    rw [parse_formats_entries es (m + 1) _ ClipboardData.default hv]
    simp only [parse_formats]
    simp only [readU32_be32 fmt _ hfmt, readU32_be32 len _ hlen]
    rw [if_neg (by omega), if_neg (by omega), if_neg (by omega)]
  · intro sz es hsz hcount hv
    unfold parse_clipboard
    simp only [List.append_assoc]
    simp only [readU32_be32 sz _ hsz]
    rw [← List.append_nil (entries_bytes es)]
    rw [show (be32 es.length ++ (entries_bytes es ++ [] : Bytes)) =
      be32 es.length ++ entries_bytes es ++ [] from by simp]
    simp only [readU32_be32 es.length _ hcount, List.append_assoc]
    rw [show es.length = es.length + 0 from by omega]
    rw [parse_formats_entries es 0 [] ClipboardData.default hv]
    simp [parse_formats]
  · intro sz fmt dlen data hsz hfmt hdlen hshort
    unfold parse_clipboard
    simp only [List.append_assoc]
    simp only [readU32_be32 sz _ hsz, readU32_be32 1 _ (by omega)]
    simp only [parse_formats]
    simp only [readU32_be32 fmt _ (by omega), readU32_be32 dlen _ hdlen]
    have htake : (extend_exact dlen data).1 = data := by
      simp only [extend_exact]
      exact List.take_of_length_le (show data.length ≤ dlen from by omega)
    have hdrop : (extend_exact dlen data).2 = [] := by
      simp only [extend_exact]
      exact List.drop_eq_nil_of_le (show data.length ≤ dlen from by omega)
    interval_cases fmt <;>
      simp [htake, hdrop, parse_formats, clip_accum]

/-- The key-up dispatch never touches the server button slots. -/
theorem key_up_apply_server_buttons (hid : SynergyHid) (code : KeyCode) :
    (hid.key_up_apply code).1.server_buttons = hid.server_buttons := by
  cases code <;> rfl

/-- C3: for every key-up event `(id, mask, button)`: when
`server_buttons[button]` is nonzero the synthesizer clears that slot and
resolves the HID unmap from the STORED key; when it is zero the event is a
no-op that emits a cleared 8-byte keyboard report.  In both cases the result
is independent of the server-supplied `id` (and `mask`), for every keycode
table `toHid`. -/
theorem barpi_C3_key_up (toHid : Nat → KeyCode) (hid : SynergyHid)
    (id id2 mask mask2 button : Nat)
    (hbtn : button < hid.server_buttons.length) :
    (hid.server_buttons.getD button 0 ≠ 0 →
      hid.key_up toHid id mask button =
        ({ hid with server_buttons := hid.server_buttons.set button 0 }).key_up_apply
          (toHid (hid.server_buttons.getD button 0)) ∧
      (hid.key_up toHid id mask button).1.server_buttons.getD button 0 = 0) ∧
    (hid.server_buttons.getD button 0 = 0 →
      (hid.key_up toHid id mask button).2 =
        (ReportType.Keyboard, List.replicate 8 0)) ∧
    hid.key_up toHid id mask button = hid.key_up toHid id2 mask2 button := by
  refine ⟨?_, ?_, rfl⟩
  · intro hnz
    unfold SynergyHid.key_up
    rw [if_pos hnz]
    refine ⟨rfl, ?_⟩
    rw [key_up_apply_server_buttons]
    simp [List.getD_eq_getElem?_getD, List.getElem?_set_self (by simpa using hbtn)]
  · intro hz
    unfold SynergyHid.key_up
    rw [if_neg (fun hne => hne hz)]
    rfl

/-- C9 counterexample: a wheel event with `x = 300` emits `44` (the `as i8`
truncation of 300) in the horizontal wheel byte, not the claimed clamped
value 127. -/
theorem barpi_C9_counterexample :
    ((SynergyHid.new 1920 1080 false).mouse_scroll 300 0).2.2 =
        [0, 0, 0, 0, 0, 0, 44] ∧
      clampI8 300 = 127 ∧ byteOfInt (clampI8 300) = 127 ∧ (44 : Nat) ≠ 127 := by
  decide

/-- C9 (amended): for every mouse wheel event with i16 deltas `(x, y)`, the
synthesized 7-byte mouse report carries x and y TRUNCATED to i8 (`as i8`,
two's-complement low byte — not clamped), with y negated (wrapping) when
`flip_mouse_wheel` is set, in the wheel fields (vertical at index 5,
horizontal at index 6); the truncated values lie in `[-128, 127]`. -/
theorem barpi_C9_mouse_scroll (hid : SynergyHid) (x y : Int)
    (hx1 : -32768 ≤ x) (hx2 : x < 32768) (hy1 : -32768 ≤ y) (hy2 : y < 32768) :
    (hid.mouse_scroll x y).2 =
      (ReportType.Mouse,
        [hid.mouse_report.buttons, hid.mouse_report.x % 256,
         hid.mouse_report.x / 256 % 256, hid.mouse_report.y % 256,
         hid.mouse_report.y / 256 % 256,
         byteOfInt (if hid.flip_mouse_wheel then wrapI8 (-(wrapI8 y)) else wrapI8 y),
         byteOfInt (wrapI8 x)]) ∧
    -128 ≤ wrapI8 x ∧ wrapI8 x ≤ 127 ∧
    -128 ≤ (if hid.flip_mouse_wheel then wrapI8 (-(wrapI8 y)) else wrapI8 y) ∧
    (if hid.flip_mouse_wheel then wrapI8 (-(wrapI8 y)) else wrapI8 y) ≤ 127 := by
  refine ⟨?_, ?_, ?_, ?_, ?_⟩
  · unfold SynergyHid.mouse_scroll AbsMouseReport.mouse_wheel
    cases hflip : hid.flip_mouse_wheel <;> simp [hflip, AbsMouseReport.bytes]
  · unfold wrapI8; omega
  · unfold wrapI8; omega
  · cases hflip : hid.flip_mouse_wheel <;> simp [hflip] <;> unfold wrapI8 <;> omega
  · cases hflip : hid.flip_mouse_wheel <;> simp [hflip] <;> unfold wrapI8 <;> omega

/-- C10: encoding a `SetClipboard` whose data has empty text writes zero
bytes (no mark-1, mark-2 or mark-3 chunk), even when the html or bitmap
fields are nonempty; and the encoder output never depends on the html or
bitmap contents at all. -/
theorem barpi_C10_set_clipboard (id seq : Nat) (d : ClipboardData) :
    (d.text = [] → write_wire (.SetClipboard id seq d) = some []) ∧
    write_wire (.SetClipboard id seq d) =
      write_wire (.SetClipboard id seq ⟨d.text, [], []⟩) := by
  constructor
  · intro h
    simp [write_wire, h]
  · rcases d with ⟨t, hh, bb⟩
    rfl

/-! ## Witnesses (concrete instantiations of the hypothesised theorems) -/

/-- Concrete instance of the C2 round trip: the `DMMV` frame for
(1920, 1080). -/
theorem barpi_C2_roundtrip_witness :
    readFrame ClipboardStage.None (be32 8 ++ tagDMMV ++ be16 1920 ++ be16 1080) =
        .ok (Packet.MouseMoveAbs 1920 1080, ClipboardStage.None, []) ∧
      write_wire (Packet.MouseMoveAbs 1920 1080) =
        some (be32 8 ++ tagDMMV ++ be16 1920 ++ be16 1080) :=
  (barpi_C2_roundtrip ClipboardStage.None 1920 1080 (by decide) (by decide)).2.2.2.2

/-- Concrete instance of C3: a key-up on an empty slot is a no-op emitting a
cleared keyboard report. -/
theorem barpi_C3_key_up_witness :
    ((SynergyHid.new 1920 1080 false).key_up (fun _ => KeyCode.None) 65 0 3).2 =
      (ReportType.Keyboard, List.replicate 8 0) :=
  (barpi_C3_key_up (fun _ => KeyCode.None) (SynergyHid.new 1920 1080 false)
    65 66 0 1 3 (by decide)).2.1 (by decide)

/-- Concrete instance of C7: a mark-2 chunk arriving in stage `None` is an
illegal transition; the read still succeeds and the stage resets. -/
theorem barpi_C7_illegal_transition_witness :
    readFrame ClipboardStage.None (dclp_frame 0 7 2 [9]) =
      .ok (Packet.ClientNoOp, ClipboardStage.None, [9]) :=
  barpi_C7_illegal_transition ClipboardStage.None 0 7 2 [9]
    (by decide) (by decide) (by decide) (by decide)

/-- Concrete instances of the three C8 cases: an unknown format id 7 yields
`FormatError`; a complete one-entry text blob parses to its payload; a final
format declaring 5 bytes with only 2 present parses successfully with the
truncation. -/
theorem barpi_C8_parse_clipboard_witness :
    parse_clipboard (be32 4 ++ be32 1 ++ entries_bytes [] ++ be32 7 ++ be32 0 ++
        ([] : Bytes)) = .error PacketError.FormatError ∧
      parse_clipboard (be32 4 ++ be32 1 ++ entries_bytes [(0, [84, 69, 83, 84])]) =
        .ok (clip_accum ClipboardData.default [(0, [84, 69, 83, 84])]) ∧
      parse_clipboard (be32 0 ++ be32 1 ++ be32 0 ++ be32 5 ++ [65, 66]) =
        .ok (clip_accum ClipboardData.default [(0, [65, 66])]) :=
  ⟨barpi_C8_parse_clipboard.1 4 0 7 0 [] [] (by decide) (by decide) (by decide)
      (by decide) (by decide) (by simp),
    barpi_C8_parse_clipboard.2.1 4 [(0, [84, 69, 83, 84])] (by decide) (by decide)
      (by decide),
    barpi_C8_parse_clipboard.2.2 0 0 5 [65, 66] (by decide) (by decide) (by decide)
      (by decide)⟩

/-- Concrete instance of C9: with `flip_mouse_wheel` set, deltas (300, -5)
produce wheel bytes 5 (vertical, negated) and 44 (horizontal, truncated). -/
theorem barpi_C9_mouse_scroll_witness :
    ((SynergyHid.new 1920 1080 true).mouse_scroll 300 (-5)).2 =
      (ReportType.Mouse, [0, 0, 0, 0, 0, 5, 44]) :=
  (barpi_C9_mouse_scroll (SynergyHid.new 1920 1080 true) 300 (-5)
    (by decide) (by decide) (by decide) (by decide)).1

/-- Concrete instance of C10: empty text with nonempty html and bitmap
writes nothing. -/
theorem barpi_C10_set_clipboard_witness :
    write_wire (.SetClipboard 0 7 ⟨[], [1, 2], [3]⟩) = some [] ∧
      write_wire (.SetClipboard 0 7 ⟨[], [1, 2], [3]⟩) =
        write_wire (.SetClipboard 0 7 ⟨[], [], []⟩) :=
  ⟨(barpi_C10_set_clipboard 0 7 ⟨[], [1, 2], [3]⟩).1 rfl,
    (barpi_C10_set_clipboard 0 7 ⟨[], [1, 2], [3]⟩).2⟩

end Barpi
